import Mathlib

/-!
Verification of the sentiment-cache web application
(`webapp/sentiment_service.py`, `webapp/app.py`, `webapp/models.py`).

The sentiment service is embedded as explicit state passing over a
`Cache` record; the external pipeline (`get_data_to_draw`,
`draw_sentiment_panel`, `json.loads`) and the wall clock are abstracted
into an `Env` record of fallible functions, so that a single call to a
handler is a pure function of the environment and the cache state.
Fallible Python code is modelled with `Except`; an error value carries
the cache state as left behind by the partial writes that preceded the
raise, mirroring mutation of the module-level `_CACHE` dict.
-/

deriving instance DecidableEq for Except

namespace Webapp

/-- `CACHE_TTL_SECONDS = 30 * 60` from `sentiment_service.py`.
Timestamps are modelled as integers (seconds). -/
def CACHE_TTL_SECONDS : Int := 30 * 60

/-- The module-level `_CACHE` dict of `sentiment_service.py`:
`{"timestamp": 0, "positive": None, "negative": None}`.
`J` is the (opaque) type of a parsed Plotly JSON document; the `None`
placeholders are `none`. -/
structure Cache (J : Type) where
  timestamp : Int
  positive : Option J
  negative : Option J
deriving Repr, DecidableEq

/-- Initial value of `_CACHE` at process start. -/
def initCache (J : Type) : Cache J :=
  { timestamp := 0, positive := none, negative := none }

/-- The external world a call runs against: the pipeline module
`marketviews_sentiment_panel_finalized` (out of scope in the source,
consumed through `get_data_to_draw` and `draw_sentiment_panel`),
`json.loads`, and the wall-clock reading `time.time()` for this call.
`DF` is the opaque type of a per-sector dataframe, `J` of a parsed JSON
document. Each external step may raise, modelled by `Except String`. -/
structure Env (DF J : Type) where
  get_data_to_draw : Bool → Except String (DF × DF)
  draw_sentiment_panel : DF → DF → Except String (String × String)
  json_loads : String → Except String J
  time_now : Int

/-- `_cache_valid()`: `(time.time() - _CACHE["timestamp"]) < CACHE_TTL_SECONDS`. -/
def cache_valid {DF J : Type} (env : Env DF J) (c : Cache J) : Bool :=
  env.time_now - c.timestamp < CACHE_TTL_SECONDS

/-- `_rebuild_cache(debug)`: fetch → draw → parse positive → parse
negative → stamp.  The source mutates `_CACHE` field by field, so on an
error the returned state is the cache as already partially written:
`_CACHE["positive"]` is assigned before `json.loads(fig_neg_json)` runs. -/
def rebuild_cache {DF J : Type} (env : Env DF J) (debug : Bool) (c : Cache J) :
    Except (String × Cache J) (Cache J) :=
  match env.get_data_to_draw debug with
  | .error e => .error (e, c)
  | .ok (top_5_each_sector, low_5_each_sector) =>
    match env.draw_sentiment_panel top_5_each_sector low_5_each_sector with
    | .error e => .error (e, c)
    | .ok (fig_pos_json, fig_neg_json) =>
      match env.json_loads fig_pos_json with
      | .error e => .error (e, c)
      | .ok posVal =>
        let c1 : Cache J := { c with positive := some posVal }
        match env.json_loads fig_neg_json with
        | .error e => .error (e, c1)
        | .ok negVal =>
          let c2 : Cache J := { c1 with negative := some negVal }
          .ok { c2 with timestamp := env.time_now }

/-- The dict lookup `_CACHE[mode]` restricted to the two result keys
served to callers; any other key is a `KeyError` (`none`).  (The dict
also holds the numeric `"timestamp"` entry, which no caller ever uses as
a mode and which does not hold a result document.) -/
def cache_lookup {J : Type} (c : Cache J) (mode : String) : Option (Option J) :=
  if mode = "positive" then some c.positive
  else if mode = "negative" then some c.negative
  else none

/-- `build_treemap_json(mode, debug)`.  On success returns the looked-up
value, the cache state after the call, and the number of pipeline
invocations (`get_data_to_draw`/`draw_sentiment_panel` runs) the call
performed. -/
def build_treemap_json {DF J : Type} (env : Env DF J) (mode : String) (debug : Bool)
    (c : Cache J) : Except (String × Cache J) (Option (Option J) × Cache J × Nat) :=
  if cache_valid env c then
    .ok (cache_lookup c mode, c, 0)
  else
    match rebuild_cache env debug c with
    | .error ec => .error ec
    | .ok c2 => .ok (cache_lookup c2 mode, c2, 1)

/-- `build_treemap_data(debug)`: a direct pass-through to
`get_data_to_draw`, returning `(top_df, low_df)`. -/
def build_treemap_data {DF J : Type} (env : Env DF J) (debug : Bool) :
    Except String (DF × DF) :=
  env.get_data_to_draw debug

/-! ### Route handlers (`app.py`) -/

/-- Python `str.lower()` on one character, restricted to ASCII. -/
def lowerChar (ch : Char) : Char :=
  if 'A' ≤ ch ∧ ch ≤ 'Z' then Char.ofNat (ch.toNat + 32) else ch

/-- Python `str.lower()`, restricted to ASCII (the only characters the
mode comparisons can match on anyway). -/
def lowerStr (s : String) : String :=
  String.mk (s.data.map lowerChar)

/-- Python `str.strip()`: remove leading and trailing whitespace. -/
def pyStrip (s : String) : String :=
  String.mk
    (((s.data.dropWhile Char.isWhitespace).reverse.dropWhile Char.isWhitespace).reverse)

/-- Mode normalization in `api_treemap`:
`mode = request.args.get("mode", "positive").lower()` followed by
`if mode not in ("positive", "negative"): mode = "positive"`.
`arg` is the query parameter, `none` when absent. -/
def api_treemap_mode (arg : Option String) : String :=
  let mode := lowerStr (arg.getD "positive")
  if mode = "positive" ∨ mode = "negative" then mode else "positive"

/-- Mode normalization in `download_csv`:
`mode = (mode or "positive").lower()` (Python `or`: the empty string is
falsy) followed by the same membership check. -/
def download_mode (mode : String) : String :=
  let m := lowerStr (if mode = "" then "positive" else mode)
  if m = "positive" ∨ m = "negative" then m else "positive"

/-- The `/api/treemap` handler body after authentication: normalize the
mode, then call `ss.build_treemap_json(mode=mode, debug=True)`. -/
def api_treemap {DF J : Type} (env : Env DF J) (arg : Option String) (c : Cache J) :
    Except (String × Cache J) (Option (Option J) × Cache J × Nat) :=
  build_treemap_json env (api_treemap_mode arg) true c

/-- The `/download/<mode>` handler body after authentication: normalize
the mode, call `ss.build_treemap_data(debug=True)`, pick `top_df` or
`low_df`, and return it as a CSV attachment with its download name.
The handler never references `_CACHE`; the cache state and a pipeline
invocation counter are threaded through to make that observable. -/
def download_csv {DF J : Type} (env : Env DF J) (mode : String) (c : Cache J) :
    Except String (DF × String) × Cache J × Nat :=
  let m := download_mode mode
  match build_treemap_data env true with
  | .error e => (.error e, c, 1)
  | .ok (top_df, low_df) =>
    let df := if m = "positive" then top_df else low_df
    (.ok (df, "sp500_sentiment_" ++ m ++ ".csv"), c, 1)

/-! ### Users and auth (`models.py`, `app.py`) -/

/-- A row of the `User` table: unique username, password hash.  `H` is
the opaque type of a werkzeug password hash. -/
structure UserRec (H : Type) where
  username : String
  password_hash : H
deriving Repr, DecidableEq

/-- The auth primitives as the handlers see them:
`check_password_hash` (via `User.check_password`) and
`generate_password_hash` (via `User.set_password`). -/
structure AuthEnv (H : Type) where
  check_password_hash : H → String → Bool
  generate_password_hash : String → H

/-- `User.query.filter_by(username=u).first()` over the user table,
modelled as the first row with that username in insertion order. -/
def query_first {H : Type} (store : List (UserRec H)) (u : String) : Option (UserRec H) :=
  store.find? (fun r => r.username = u)

/-- The observable outcome of a POST auth request: either a session is
established for a concrete user followed by a redirect, or a flash
message is recorded and the client is redirected. -/
inductive AuthOutcome (H : Type) where
  | session (user : UserRec H) (redirectTo : String)
  | flashRedirect (msg : String) (redirectTo : String)
deriving Repr, DecidableEq

/-- The POST branch of the `/login` handler: strip both fields, look the
user up, verify the password, and either establish a session
(`login_user(user)` then redirect to `dashboard`) or flash the generic
message and redirect back to `login`. -/
def loginPost {H : Type} (env : AuthEnv H) (store : List (UserRec H))
    (username password : String) : AuthOutcome H :=
  let username := pyStrip username
  let password := pyStrip password
  match query_first store username with
  | some user =>
    if env.check_password_hash user.password_hash password then
      .session user "dashboard"
    else
      .flashRedirect "Invalid username or password." "login"
  | none => .flashRedirect "Invalid username or password." "login"

/-- The POST branch of the `/register` handler: strip both fields,
reject empty input, reject a duplicate username, otherwise hash the
password and insert the new row.  Returns the outcome and the user
table after the request. -/
def registerPost {H : Type} (env : AuthEnv H) (store : List (UserRec H))
    (username password : String) : AuthOutcome H × List (UserRec H) :=
  let username := pyStrip username
  let password := pyStrip password
  if username = "" ∨ password = "" then
    (.flashRedirect "Username and password required." "register", store)
  else if (query_first store username).isSome then
    (.flashRedirect "Username already exists." "register", store)
  else
    (.flashRedirect "Registration successful. Please log in." "login",
      store ++ [{ username := username,
                  password_hash := env.generate_password_hash password }])

/-! ### Concrete instantiations used to evaluate the model -/

/-- A concrete, fully successful environment over `DF := Nat`,
`J := Nat` (dataframes and parsed JSON documents collapsed to numbers),
with the wall clock at `t`. -/
def envOkNat (t : Int) : Env Nat Nat :=
  { get_data_to_draw := fun _ => .ok (10, 20)
    draw_sentiment_panel := fun _ _ => .ok ("pos", "neg")
    json_loads := fun s => .ok s.length
    time_now := t }

/-- A concrete environment whose pipeline succeeds but whose JSON
parsing fails on the negative figure only, with the wall clock at 5000. -/
def envNegParseFails : Env Nat Nat :=
  { get_data_to_draw := fun _ => .ok (10, 20)
    draw_sentiment_panel := fun _ _ => .ok ("pos", "neg")
    json_loads := fun s => if s = "pos" then .ok 7 else .error "bad json"
    time_now := 5000 }

/-- A concrete auth environment over `H := String`: the hash of a
password is the password itself and verification is string equality. -/
def authEnvS : AuthEnv String :=
  { check_password_hash := fun h p => h = p
    generate_password_hash := fun p => p }

end Webapp

namespace Webapp

/-! ### Claims about the sentiment cache -/

/-- C1: a call to `build_treemap_json` made while the elapsed time since
the stored timestamp is below `CACHE_TTL_SECONDS` returns the stored
cache entry for `mode`, performs zero pipeline invocations and leaves
the cache unchanged; consequently two such calls within the TTL window
(at possibly different clock readings) return identical results. -/
theorem cache_hit_pure_read {DF J : Type} (env env' : Env DF J) (mode : String)
    (debug debug' : Bool) (c : Cache J)
    (h : env.time_now - c.timestamp < CACHE_TTL_SECONDS)
    (h' : env'.time_now - c.timestamp < CACHE_TTL_SECONDS) :
    build_treemap_json env mode debug c = .ok (cache_lookup c mode, c, 0) ∧
    build_treemap_json env' mode debug' c = .ok (cache_lookup c mode, c, 0) := by
  constructor <;> simp [build_treemap_json, cache_valid, h, h']

/-- Witness for C1 at a concrete cache and two concrete clock readings
inside the TTL window. -/
theorem cache_hit_pure_read_witness :
    build_treemap_json (envOkNat 100) "positive" true
        ({ timestamp := 0, positive := some 1, negative := some 2 } : Cache Nat) =
      .ok (cache_lookup ({ timestamp := 0, positive := some 1, negative := some 2 } : Cache Nat)
        "positive", { timestamp := 0, positive := some 1, negative := some 2 }, 0) ∧
    build_treemap_json (envOkNat 200) "positive" false
        ({ timestamp := 0, positive := some 1, negative := some 2 } : Cache Nat) =
      .ok (cache_lookup ({ timestamp := 0, positive := some 1, negative := some 2 } : Cache Nat)
        "positive", { timestamp := 0, positive := some 1, negative := some 2 }, 0) :=
  cache_hit_pure_read (envOkNat 100) (envOkNat 200) "positive" true false
    { timestamp := 0, positive := some 1, negative := some 2 } (by decide) (by decide)

/-- C2: a call to `build_treemap_json` made when the elapsed time since
the stored timestamp is at least `CACHE_TTL_SECONDS`, with every
rebuild step succeeding, performs exactly one pipeline invocation,
stores both parsed variants plus the fresh timestamp, and returns the
stored variant for the requested mode. -/
theorem cache_stale_rebuild {DF J : Type} (env : Env DF J) (mode : String) (debug : Bool)
    (c : Cache J) (t l : DF) (fp fn : String) (jp jn : J)
    (hstale : CACHE_TTL_SECONDS ≤ env.time_now - c.timestamp)
    (h1 : env.get_data_to_draw debug = .ok (t, l))
    (h2 : env.draw_sentiment_panel t l = .ok (fp, fn))
    (h3 : env.json_loads fp = .ok jp)
    (h4 : env.json_loads fn = .ok jn) :
    build_treemap_json env mode debug c =
      .ok (cache_lookup
            ({ timestamp := env.time_now, positive := some jp, negative := some jn } : Cache J)
            mode,
          { timestamp := env.time_now, positive := some jp, negative := some jn }, 1) := by
  have hv : cache_valid env c = false := by
    simp only [cache_valid, decide_eq_false_iff_not, not_lt]
    exact hstale
  simp [build_treemap_json, hv, rebuild_cache, h1, h2, h3, h4]

/-- Witness for C2: a stale cache at a concrete clock with a concrete
successful pipeline. -/
theorem cache_stale_rebuild_witness :
    build_treemap_json (envOkNat 5000) "negative" true (initCache Nat) =
      .ok (cache_lookup
            ({ timestamp := 5000, positive := some 3, negative := some 3 } : Cache Nat)
            "negative",
          { timestamp := 5000, positive := some 3, negative := some 3 }, 1) :=
  cache_stale_rebuild (envOkNat 5000) "negative" true (initCache Nat) 10 20 "pos" "neg" 3 3
    (by decide) rfl rfl rfl rfl

/-- C3 counterexample: when parsing the negative figure's JSON raises
after parsing of the positive figure succeeded, the error propagates
but the cache observable afterwards differs from the cache before the
attempt — `_CACHE["positive"]` has already been overwritten while
`negative` and `timestamp` are stale, a partial overwrite. -/
theorem rebuild_partial_overwrite_cex :
    rebuild_cache envNegParseFails true (initCache Nat) =
      .error ("bad json", { timestamp := 0, positive := some 7, negative := none }) ∧
    ({ timestamp := 0, positive := some 7, negative := none } : Cache Nat) ≠ initCache Nat := by
  exact ⟨rfl, by decide⟩

/-- C3 amended: a failing rebuild always propagates its error through
`build_treemap_json` uncaught and never touches `timestamp` or the
`negative` slot; the cache is wholly unchanged when the failing step is
the data fetch, the rendering, or the parsing of the positive JSON, but
when the parsing of the negative JSON is the step that fails, the
`positive` slot has already been overwritten with the freshly parsed
positive document. -/
theorem rebuild_failure_propagation {DF J : Type} (env : Env DF J) (mode : String)
    (debug : Bool) (c : Cache J) (e : String) (c' : Cache J)
    (hstale : CACHE_TTL_SECONDS ≤ env.time_now - c.timestamp)
    (herr : rebuild_cache env debug c = .error (e, c')) :
    build_treemap_json env mode debug c = .error (e, c') ∧
    c'.timestamp = c.timestamp ∧ c'.negative = c.negative ∧
    (c'.positive = c.positive ∨
      ∃ t l fp fn jp, env.get_data_to_draw debug = .ok (t, l) ∧
        env.draw_sentiment_panel t l = .ok (fp, fn) ∧
        env.json_loads fp = .ok jp ∧ env.json_loads fn = .error e ∧
        c'.positive = some jp) := by
  have hv : cache_valid env c = false := by
    simp only [cache_valid, decide_eq_false_iff_not, not_lt]
    exact hstale
  refine ⟨by simp [build_treemap_json, hv, herr], ?_⟩
  cases h1 : env.get_data_to_draw debug with
  | error e1 =>
    simp only [rebuild_cache, h1, Except.error.injEq, Prod.mk.injEq] at herr
    obtain ⟨he, hc⟩ := herr
    subst hc
    exact ⟨rfl, rfl, Or.inl rfl⟩
  | ok tl =>
    obtain ⟨t, l⟩ := tl
    cases h2 : env.draw_sentiment_panel t l with
    | error e2 =>
      simp only [rebuild_cache, h1, h2, Except.error.injEq, Prod.mk.injEq] at herr
      obtain ⟨he, hc⟩ := herr
      subst hc
      exact ⟨rfl, rfl, Or.inl rfl⟩
    | ok figs =>
      obtain ⟨fp, fn⟩ := figs
      cases h3 : env.json_loads fp with
      | error e3 =>
        simp only [rebuild_cache, h1, h2, h3, Except.error.injEq, Prod.mk.injEq] at herr
        obtain ⟨he, hc⟩ := herr
        subst hc
        exact ⟨rfl, rfl, Or.inl rfl⟩
      | ok jp =>
        cases h4 : env.json_loads fn with
        | error e4 =>
          simp only [rebuild_cache, h1, h2, h3, h4, Except.error.injEq,
            Prod.mk.injEq] at herr
          obtain ⟨he, hc⟩ := herr
          subst he
          subst hc
          exact ⟨rfl, rfl, Or.inr ⟨t, l, fp, fn, jp, rfl, h2, h3, h4, rfl⟩⟩
        | ok jn =>
          simp only [rebuild_cache, h1, h2, h3, h4] at herr
          exact Except.noConfusion herr

/-- Witness for the amended C3 at a concrete failing environment (the
negative-JSON parse fails) and the initially empty cache. -/
theorem rebuild_failure_propagation_witness :
    build_treemap_json envNegParseFails "positive" true (initCache Nat) =
      .error ("bad json", { timestamp := 0, positive := some 7, negative := none }) ∧
    ({ timestamp := 0, positive := some 7, negative := none } : Cache Nat).timestamp =
      (initCache Nat).timestamp ∧
    ({ timestamp := 0, positive := some 7, negative := none } : Cache Nat).negative =
      (initCache Nat).negative ∧
    (({ timestamp := 0, positive := some 7, negative := none } : Cache Nat).positive =
        (initCache Nat).positive ∨
      ∃ t l fp fn jp, envNegParseFails.get_data_to_draw true = .ok (t, l) ∧
        envNegParseFails.draw_sentiment_panel t l = .ok (fp, fn) ∧
        envNegParseFails.json_loads fp = .ok jp ∧
        envNegParseFails.json_loads fn = .error "bad json" ∧
        ({ timestamp := 0, positive := some 7, negative := none } : Cache Nat).positive =
          some jp) :=
  rebuild_failure_propagation envNegParseFails "positive" true (initCache Nat)
    "bad json" { timestamp := 0, positive := some 7, negative := none } (by decide) rfl

/-! ### Claims about the route handlers -/

/-- C4: both route handlers normalize any supplied mode — lowercased,
and replaced by "positive" when outside the two defined values — before
it reaches the cache, so the dict lookup in `build_treemap_json` always
hits one of the two defined keys and is never a KeyError. -/
theorem mode_always_normalized {J : Type} (arg : Option String) (mode : String)
    (c : Cache J) :
    (api_treemap_mode arg = "positive" ∨ api_treemap_mode arg = "negative") ∧
    (download_mode mode = "positive" ∨ download_mode mode = "negative") ∧
    (cache_lookup c (api_treemap_mode arg)).isSome = true ∧
    (cache_lookup c (download_mode mode)).isSome = true := by
  have key : ∀ m : String,
      (if m = "positive" ∨ m = "negative" then m else "positive") = "positive" ∨
      (if m = "positive" ∨ m = "negative" then m else "positive") = "negative" := by
    intro m
    split
    · assumption
    · exact Or.inl rfl
  have h1 : api_treemap_mode arg = "positive" ∨ api_treemap_mode arg = "negative" :=
    key (lowerStr (arg.getD "positive"))
  have h2 : download_mode mode = "positive" ∨ download_mode mode = "negative" :=
    key (lowerStr (if mode = "" then "positive" else mode))
  refine ⟨h1, h2, ?_, ?_⟩
  · rcases h1 with h | h <;> simp [cache_lookup, h]
  · rcases h2 with h | h <;> simp [cache_lookup, h]

/-- C5: the `/download/<mode>` handler calls the pipeline exactly once
on every request, and neither reads nor writes the sentiment cache:
the cache state after the call equals the one before it, and the
response is independent of the cache state — even a fresh cache is
bypassed entirely. -/
theorem download_bypasses_cache {DF J : Type} (env : Env DF J) (mode : String)
    (c c2 : Cache J) :
    (download_csv env mode c).2.1 = c ∧
    (download_csv env mode c).2.2 = 1 ∧
    (download_csv env mode c).1 = (download_csv env mode c2).1 := by
  unfold download_csv build_treemap_data
  cases env.get_data_to_draw true <;> simp

/-- C6 counterexample: for the URL path mode "Positive", the CSV
attachment is named with the normalized mode,
`sp500_sentiment_positive.csv`, not with the mode given in the URL
path, `sp500_sentiment_Positive.csv`. -/
theorem download_name_cex :
    (download_csv (envOkNat 0) "Positive" (initCache Nat)).1 =
      .ok (10, "sp500_sentiment_positive.csv") ∧
    "sp500_sentiment_positive.csv" ≠ "sp500_sentiment_Positive.csv" := by
  exact ⟨by decide, by decide⟩

/-- C6 amended: every successful `/download/<mode>` response is a CSV
attachment named `sp500_sentiment_<m>.csv` where `m` is the normalized
mode (URL mode lowercased, replaced by "positive" when empty or outside
the two defined values); `m` coincides with the URL mode exactly when
the URL mode is already "positive" or "negative". -/
theorem download_name_normalized {DF J : Type} (env : Env DF J) (mode : String)
    (c : Cache J) (df : DF) (name : String)
    (h : (download_csv env mode c).1 = .ok (df, name)) :
    name = "sp500_sentiment_" ++ download_mode mode ++ ".csv" ∧
    (mode = "positive" ∨ mode = "negative" →
      name = "sp500_sentiment_" ++ mode ++ ".csv") := by
  unfold download_csv build_treemap_data at h
  cases hg : env.get_data_to_draw true with
  | error e => rw [hg] at h; exact Except.noConfusion h
  | ok tl =>
    obtain ⟨top_df, low_df⟩ := tl
    rw [hg] at h
    simp only [Except.ok.injEq, Prod.mk.injEq] at h
    obtain ⟨-, hname⟩ := h
    subst hname
    refine ⟨rfl, fun hm => ?_⟩
    rcases hm with hm | hm <;> subst hm <;> decide

/-- Witness for the amended C6 at a concrete environment and the URL
mode "negative". -/
theorem download_name_normalized_witness :
    ("sp500_sentiment_negative.csv" =
      "sp500_sentiment_" ++ download_mode "negative" ++ ".csv") ∧
    ("negative" = "positive" ∨ "negative" = "negative" →
      "sp500_sentiment_negative.csv" = "sp500_sentiment_" ++ "negative" ++ ".csv") :=
  download_name_normalized (envOkNat 0) "negative" (initCache Nat) 20
    "sp500_sentiment_negative.csv" (by decide)

/-! ### Claims about the auth handlers -/

/-- C7: whenever the submitted credentials verify (a row with the
stripped username exists and the password checks against its hash), the
login handler establishes a session for that user; in every other case
(unknown user or wrong password alike) it produces the one generic
flash message and redirect, so the two failure causes yield literally
the same user-visible outcome. -/
theorem login_outcomes {H : Type} (env : AuthEnv H) (store : List (UserRec H))
    (username password : String) :
    ((∃ user, query_first store (pyStrip username) = some user ∧
        env.check_password_hash user.password_hash (pyStrip password) = true) →
      ∃ user, query_first store (pyStrip username) = some user ∧
        loginPost env store username password = .session user "dashboard") ∧
    ((¬ ∃ user, query_first store (pyStrip username) = some user ∧
        env.check_password_hash user.password_hash (pyStrip password) = true) →
      loginPost env store username password =
        .flashRedirect "Invalid username or password." "login") := by
  constructor
  · rintro ⟨user, hu, hc⟩
    exact ⟨user, hu, by simp [loginPost, hu, hc]⟩
  · intro hno
    cases hq : query_first store (pyStrip username) with
    | none => simp [loginPost, hq]
    | some user =>
      cases hcheck : env.check_password_hash user.password_hash (pyStrip password) with
      | true => exact absurd ⟨user, hq, hcheck⟩ hno
      | false => simp [loginPost, hq, hcheck]

/-- Witness for C7: a concrete one-user store; a correct login, an
unknown-user login and a wrong-password login. -/
theorem login_outcomes_witness :
    (∃ user, query_first [(⟨"alice", "pw"⟩ : UserRec String)] (pyStrip "alice") = some user ∧
       loginPost authEnvS [⟨"alice", "pw"⟩] "alice" "pw" = .session user "dashboard") ∧
    loginPost authEnvS [⟨"alice", "pw"⟩] "bob" "pw" =
      .flashRedirect "Invalid username or password." "login" ∧
    loginPost authEnvS [⟨"alice", "pw"⟩] "alice" "wrong" =
      .flashRedirect "Invalid username or password." "login" :=
  ⟨(login_outcomes authEnvS [⟨"alice", "pw"⟩] "alice" "pw").1
      ⟨⟨"alice", "pw"⟩, by decide, by decide⟩,
   (login_outcomes authEnvS [⟨"alice", "pw"⟩] "bob" "pw").2
      (by
        rintro ⟨u, hu, -⟩
        rw [show query_first [(⟨"alice", "pw"⟩ : UserRec String)] (pyStrip "bob") = none
          from by decide] at hu
        exact Option.noConfusion hu),
   (login_outcomes authEnvS [⟨"alice", "pw"⟩] "alice" "wrong").2
      (by
        rintro ⟨u, hu, hcheck⟩
        rw [show query_first [(⟨"alice", "pw"⟩ : UserRec String)] (pyStrip "alice") =
          some ⟨"alice", "pw"⟩ from by decide] at hu
        cases Option.some.inj hu
        exact absurd hcheck (by decide))⟩

/-- C8: on a user table with pairwise-distinct usernames, a POST to
`/register` whose stripped username already exists inserts nothing —
the table is returned unchanged and the outcome is a flash message with
a redirect back to the registration page — and in every case (reject or
insert) the table's usernames stay pairwise distinct. -/
theorem register_unique_preserved {H : Type} (env : AuthEnv H) (store : List (UserRec H))
    (username password : String)
    (huniq : store.Pairwise (fun a b => a.username ≠ b.username)) :
    ((query_first store (pyStrip username)).isSome = true →
      (registerPost env store username password).2 = store ∧
      ∃ msg, (registerPost env store username password).1 =
        .flashRedirect msg "register") ∧
    (registerPost env store username password).2.Pairwise
      (fun a b => a.username ≠ b.username) := by
  constructor
  · intro hdup
    by_cases he : pyStrip username = "" ∨ pyStrip password = ""
    · refine ⟨by simp [registerPost, he], "Username and password required.", ?_⟩
      simp [registerPost, he]
    · refine ⟨by simp [registerPost, he, hdup], "Username already exists.", ?_⟩
      simp [registerPost, he, hdup]
  · by_cases he : pyStrip username = "" ∨ pyStrip password = ""
    · simpa [registerPost, he] using huniq
    · by_cases hdup : (query_first store (pyStrip username)).isSome = true
      · simpa [registerPost, he, hdup] using huniq
      · have hnone : query_first store (pyStrip username) = none := by
          cases h : query_first store (pyStrip username) with
          | none => rfl
          | some u => rw [h] at hdup; simp at hdup
        have hall : ∀ r ∈ store, ¬ r.username = pyStrip username := by
          have := List.find?_eq_none.mp hnone
          intro r hr
          have hx := this r hr
          simpa using hx
        simp only [registerPost, he, hnone, Option.isSome_none, Bool.false_eq_true,
          if_false, ite_false, List.pairwise_append]
        refine ⟨huniq, List.pairwise_singleton _ _, ?_⟩
        intro a ha b hb
        simp only [List.mem_singleton] at hb
        subst hb
        exact hall a ha

/-- Witness for C8: a concrete one-user table and a duplicate
registration attempt for "alice". -/
theorem register_unique_preserved_witness :
    (((query_first [(⟨"alice", "pw"⟩ : UserRec String)] (pyStrip "alice")).isSome = true →
      (registerPost authEnvS [⟨"alice", "pw"⟩] "alice" "secret").2 = [⟨"alice", "pw"⟩] ∧
      ∃ msg, (registerPost authEnvS [⟨"alice", "pw"⟩] "alice" "secret").1 =
        .flashRedirect msg "register") ∧
    (registerPost authEnvS [⟨"alice", "pw"⟩] "alice" "secret").2.Pairwise
      (fun a b => a.username ≠ b.username)) :=
  register_unique_preserved authEnvS [⟨"alice", "pw"⟩] "alice" "secret"
    (List.pairwise_singleton _ _)

/-- C9: a POST to `/register` whose username or password is empty after
stripping flashes the requirement message and redirects back to the
registration page, leaving the user table unchanged. -/
theorem register_rejects_empty {H : Type} (env : AuthEnv H) (store : List (UserRec H))
    (username password : String)
    (h : pyStrip username = "" ∨ pyStrip password = "") :
    registerPost env store username password =
      (.flashRedirect "Username and password required." "register", store) := by
  simp [registerPost, h]

/-- Witness for C9: a whitespace-only username. -/
theorem register_rejects_empty_witness :
    registerPost authEnvS ([] : List (UserRec String)) "   " "pw" =
      (.flashRedirect "Username and password required." "register", []) :=
  register_rejects_empty authEnvS [] "   " "pw" (Or.inl (by decide))

/-! ### Claim about the initial cache state -/

/-- Helper: a successful rebuild always produces a cache whose two
result slots are filled and whose timestamp is the call's clock. -/
theorem rebuild_cache_ok_shape {DF J : Type} (env : Env DF J) (debug : Bool)
    (c c2 : Cache J) (h : rebuild_cache env debug c = .ok c2) :
    ∃ jp jn, c2 = { timestamp := env.time_now, positive := some jp, negative := some jn } := by
  cases h1 : env.get_data_to_draw debug with
  | error e1 => simp [rebuild_cache, h1] at h
  | ok tl =>
    obtain ⟨t, l⟩ := tl
    cases h2 : env.draw_sentiment_panel t l with
    | error e2 => simp [rebuild_cache, h1, h2] at h
    | ok figs =>
      obtain ⟨fp, fn⟩ := figs
      cases h3 : env.json_loads fp with
      | error e3 => simp [rebuild_cache, h1, h2, h3] at h
      | ok jp =>
        cases h4 : env.json_loads fn with
        | error e4 => simp [rebuild_cache, h1, h2, h3, h4] at h
        | ok jn =>
          simp only [rebuild_cache, h1, h2, h3, h4, Except.ok.injEq] at h
          exact ⟨jp, jn, h.symm⟩

/-- C10: the cache starts as `{timestamp: 0, positive: None,
negative: None}`; provided the wall clock is at least
`CACHE_TTL_SECONDS` past the epoch, the first call's staleness check
fails and a rebuild runs before the lookup, so a successful first call
performs one pipeline invocation and never hands a `None` placeholder
back to the caller. -/
theorem first_call_rebuilds {DF J : Type} (env : Env DF J) (mode : String) (debug : Bool)
    (v : Option (Option J)) (c' : Cache J) (n : Nat)
    (hnow : CACHE_TTL_SECONDS ≤ env.time_now)
    (hok : build_treemap_json env mode debug (initCache J) = .ok (v, c', n)) :
    cache_valid env (initCache J) = false ∧ n = 1 ∧
    ∃ jp jn, c'.positive = some jp ∧ c'.negative = some jn ∧
      (mode = "positive" → v = some (some jp)) ∧
      (mode = "negative" → v = some (some jn)) := by
  have hv : cache_valid env (initCache J) = false := by
    simp only [cache_valid, initCache, decide_eq_false_iff_not, not_lt]
    omega
  refine ⟨hv, ?_⟩
  simp only [build_treemap_json, hv, Bool.false_eq_true, if_false] at hok
  cases hr : rebuild_cache env debug (initCache J) with
  | error ec => rw [hr] at hok; exact Except.noConfusion hok
  | ok c2 =>
    rw [hr] at hok
    simp only [Except.ok.injEq, Prod.mk.injEq] at hok
    obtain ⟨hval, hc, hn⟩ := hok
    obtain ⟨jp, jn, hshape⟩ := rebuild_cache_ok_shape env debug (initCache J) c2 hr
    subst hc
    subst hshape
    refine ⟨hn.symm, jp, jn, rfl, rfl, ?_, ?_⟩ <;> intro hm <;> subst hm <;>
      simp [cache_lookup] at hval ⊢ <;> exact hval.symm

/-- Witness for C10: the empty initial cache, the clock exactly at the
TTL, and a successful concrete pipeline. -/
theorem first_call_rebuilds_witness :
    cache_valid (envOkNat 1800) (initCache Nat) = false ∧ 1 = 1 ∧
    ∃ jp jn,
      ({ timestamp := 1800, positive := some 3, negative := some 3 } : Cache Nat).positive =
        some jp ∧
      ({ timestamp := 1800, positive := some 3, negative := some 3 } : Cache Nat).negative =
        some jn ∧
      ("positive" = "positive" → (some (some 3) : Option (Option Nat)) = some (some jp)) ∧
      ("positive" = "negative" → (some (some 3) : Option (Option Nat)) = some (some jn)) :=
  first_call_rebuilds (envOkNat 1800) "positive" true (some (some 3))
    { timestamp := 1800, positive := some 3, negative := some 3 } 1 (by decide) (by decide)

end Webapp
